import Mathlib

/-!
Shallow embedding of the MindMate mood-journaling repository
(`src/mindmate_front.py` and `src/mindmate_frontend.py`).

The two Python files each contain a local mood classifier:
`mock_analyze_mood` in `mindmate_front.py` (keyword counts, two severity
keyword lists, three-part insight, hash-indexed music lists) and
`analyze_mood` in `mindmate_frontend.py` (fixed heuristic weights, a single
stress-word list, one fixed track and insight sentence per tier).

Modelling notes:
- Python `str.lower()` is modelled as the ASCII `Char.toLower` map; all
  keyword tables are ASCII, and the claims only need lower-casing on them.
- Python `kw in s` (substring containment) is modelled as list-infix on the
  character lists.
- Python `hash` (process-seeded string hash) and `hashlib.md5` are external:
  they are passed in as function parameters, fixed for a run.
- `datetime.now().isoformat()` is passed in as a `now : String` parameter.
- Python dicts preserve insertion order; they are modelled as association
  lists in the insertion order of the source.
- Python floats 0.7/0.75/0.8/0.85 are modelled as rationals: the program
  only compares these constants with each other, and those comparisons
  agree with the rational ones.
- A `KeyError` raised by a dict lookup (possible in `mock_analyze_mood`
  when a caller supplies a severity outside low/medium/high) is modelled by
  an `Option` result.
-/

namespace Mindmate

/-- Python `s.lower()` (ASCII model). -/
def lowerStr (s : String) : String := ⟨s.data.map Char.toLower⟩

/-- Python `needle in haystack` for strings: substring containment. -/
def strIn (needle haystack : String) : Prop := needle.data <:+: haystack.data

instance (n h : String) : Decidable (strIn n h) :=
  inferInstanceAs (Decidable (n.data <:+: h.data))

/-- Boolean form of `strIn`, used where the source uses it as a condition. -/
def strInB (needle haystack : String) : Bool := decide (strIn needle haystack)

/-- Python `max(l, key=snd)` over a non-empty list given as head and tail:
keeps the current best and replaces it only on a strictly greater key, so
ties go to the earliest element. -/
def pyMax2 {α β : Type} [LinearOrder β] (best : α × β) : List (α × β) → α × β
  | [] => best
  | x :: xs => pyMax2 (if best.2 < x.2 then x else best) xs

/-- `mindmate_front.py` lines 164-174: the fixed trigger keyword table,
in source order. -/
def trigger_keywords : List (String × List String) :=
  [ ("political", ["election", "politics", "government", "vote", "policy", "politician"])
  , ("work", ["job", "boss", "deadline", "work", "career", "office", "colleague"])
  , ("health", ["sick", "pain", "anxiety", "depression", "mental", "physical"])
  , ("relationship", ["partner", "breakup", "marriage", "dating", "spouse", "divorce"])
  , ("financial", ["money", "debt", "bills", "salary", "budget", "expensive"])
  , ("academic", ["exam", "school", "study", "grade", "homework", "test"])
  , ("family", ["family", "parent", "mother", "father", "sibling", "child"])
  , ("social", ["friend", "lonely", "isolated", "people", "community"])
  , ("environmental", ["climate", "environment", "pollution", "nature", "weather"])
  ]

/-- The nine category labels, in the table's enumeration order. -/
def trigger_names : List String := trigger_keywords.map Prod.fst

/-- `mindmate_front.py` line 180: count of a category's keywords occurring
in the lower-cased text. -/
def mock_score (mood_lower : String) (kws : List String) : Nat :=
  kws.countP (fun kw => strInB kw mood_lower)

/-- `mindmate_front.py` lines 176-181: score every category. -/
def mock_trigger_scores (mood_text : String) : List (String × Nat) :=
  trigger_keywords.map (fun p => (p.1, mock_score (lowerStr mood_text) p.2))

/-- `mindmate_front.py` line 183: primary trigger = `max(items, key=snd)`
if any score is nonzero, else "other". -/
def mock_primary_trigger (mood_text : String) : String :=
  if (mock_trigger_scores mood_text).any (fun p => p.2 ≠ 0) then
    (match mock_trigger_scores mood_text with
     | [] => "other"
     | x :: xs => (pyMax2 x xs).1)
  else "other"

/-- `mindmate_front.py` line 187. -/
def high_words : List String :=
  ["crisis", "hopeless", "unbearable", "suicide", "kill", "can\x27t take", "overwhelming"]

/-- `mindmate_front.py` line 188. -/
def medium_words : List String :=
  ["stressed", "anxious", "worried", "upset", "struggling", "difficult"]

/-- `mindmate_front.py` lines 190-195: severity auto-detection. -/
def mock_auto_severity (mood_text : String) : String :=
  if high_words.any (fun w => strInB w (lowerStr mood_text)) then "high"
  else if medium_words.any (fun w => strInB w (lowerStr mood_text)) then "medium"
  else "low"

/-- `mindmate_front.py` line 186 (`if not severity:`): a missing or empty
severity argument triggers auto-detection, anything else passes through. -/
def mock_severity (mood_text : String) (severity : Option String) : String :=
  match severity with
  | none => mock_auto_severity mood_text
  | some s => if s = "" then mock_auto_severity mood_text else s

/-- `mindmate_front.py` lines 201-206: severity-tier opening sentence of the
insight. -/
def mock_base_insight (sev : String) : String :=
  if sev = "high" then
    "Your entry indicates significant emotional distress that warrants immediate attention."
  else if sev = "medium" then
    "Your mood reflects notable challenges that could benefit from proactive support."
  else
    "Your emotional state appears stable with manageable concerns."

/-- `mindmate_front.py` lines 267-272: severity-tier closing sentence of the
insight. -/
def mock_closing_insight (sev : String) : String :=
  if sev = "high" then
    "Remember: You deserve support and things can improve with proper help."
  else if sev = "medium" then
    "Taking proactive steps now can prevent escalation and improve your situation."
  else
    "Maintaining this self-awareness and continuing healthy habits will serve you well."

/-- `mindmate_front.py` lines 209-260: the trigger-by-severity insight table,
each trigger mapped to its (high, medium, low) sentences in source order. -/
def trigger_insights : List (String × List (String × String)) :=
  [ ("political",
     [ ("high", "Political events can deeply affect our sense of safety and control. Consider limiting news consumption and focusing on local action you can take.")
     , ("medium", "Political concerns are valid. Channel this energy into constructive civic engagement or set boundaries around political media.")
     , ("low", "Your political awareness is healthy. Stay informed while maintaining balance in other life areas.")
     ])
  , ("work",
     [ ("high", "Work-related distress at this level may indicate burnout or unsustainable conditions. Professional boundaries and support are crucial.")
     , ("medium", "Work pressures are impacting your wellbeing. Time management, delegation, or discussing workload with supervisors may help.")
     , ("low", "Work challenges are present but manageable. Continue using your coping strategies and maintain work-life boundaries.")
     ])
  , ("health",
     [ ("high", "Health concerns causing this level of distress require both medical attention and mental health support. Don\x27t hesitate to reach out.")
     , ("medium", "Health worries can be consuming. Consulting healthcare providers and practicing self-compassion are important steps.")
     , ("low", "Health awareness is positive. Continue healthy routines and address concerns early with medical professionals.")
     ])
  , ("relationship",
     [ ("high", "Relationship conflicts at this intensity significantly impact emotional wellbeing. Couples therapy or counseling could provide valuable support.")
     , ("medium", "Relationship challenges are affecting you. Open communication, setting healthy boundaries, and possibly counseling could help.")
     , ("low", "Relationship dynamics have ups and downs. Your awareness suggests you\x27re navigating this thoughtfully.")
     ])
  , ("financial",
     [ ("high", "Financial stress at this level can feel overwhelming. Seek support from financial counselors, trusted advisors, or mental health professionals.")
     , ("medium", "Money concerns are weighing on you. Creating a budget, exploring resources, or consulting a financial advisor may provide relief.")
     , ("low", "Financial awareness is responsible. Continue monitoring your finances and planning for future stability.")
     ])
  , ("academic",
     [ ("high", "Academic pressure has reached a critical point. Reach out to counselors, professors, or academic support services immediately.")
     , ("medium", "Academic stress is significant. Time management, study groups, tutoring, or speaking with instructors could ease the burden.")
     , ("low", "Academic challenges are normal. Your approach seems balanced—continue your study habits and self-care.")
     ])
  , ("family",
     [ ("high", "Family dynamics causing this distress may benefit from family therapy or individual counseling to process these relationships.")
     , ("medium", "Family tensions are impacting you. Setting boundaries, open dialogue when safe, or therapy can help navigate these relationships.")
     , ("low", "Family relationships have complexities. Your self-awareness in managing these dynamics is healthy.")
     ])
  , ("social",
     [ ("high", "Social isolation or conflicts at this level need attention. Consider reaching out to trusted friends, joining groups, or seeking counseling.")
     , ("medium", "Social concerns are affecting your mood. Small steps like reaching out to one person or joining an activity can make a difference.")
     , ("low", "Social connections seem balanced. Continue nurturing relationships that bring you joy and support.")
     ])
  , ("environmental",
     [ ("high", "Environmental anxiety (eco-anxiety) is real and valid. Channeling this into action while practicing self-care is essential.")
     , ("medium", "Environmental concerns are weighing on you. Balance staying informed with taking breaks and focusing on actionable steps.")
     , ("low", "Environmental awareness shows your values. Continue sustainable choices while maintaining overall wellbeing.")
     ])
  , ("other",
     [ ("high", "You\x27re experiencing significant distress. Professional support can help you understand and address what you\x27re going through.")
     , ("medium", "Multiple factors may be contributing to your current state. Taking time to identify specific concerns can be helpful.")
     , ("low", "General life challenges are present. Your self-reflection and self-care practices are serving you well.")
     ])
  ]

/-- `mindmate_front.py` lines 198-274: the insight is the space-join of a
severity opening, the table sentence when the primary trigger has a table
row (a missing severity column is a `KeyError`, modelled as `none`), and a
severity closing. -/
def mock_deep_insight (primary sev : String) : Option String :=
  match trigger_insights.lookup primary with
  | none => some (mock_base_insight sev ++ " " ++ mock_closing_insight sev)
  | some row =>
    (row.lookup sev).map
      (fun mid => mock_base_insight sev ++ " " ++ mid ++ " " ++ mock_closing_insight sev)

/-- `mindmate_front.py` lines 278-283 / 293-298 / 308-314: advice text per
severity tier. -/
def mock_advice (sev : String) : String :=
  if sev = "high" then
    "🚨 IMMEDIATE SUPPORT NEEDED:\n1. Deep breathing (4-7-8 technique: inhale 4, hold 7, exhale 8)\n2. Contact a trusted person immediately\n3. Crisis Lifeline: 988 (call or text) or text HELLO to 741741\n4. Remove yourself from immediate stressors if safe\n5. Consider emergency mental health services if needed"
  else if sev = "medium" then
    "⚠️ STRESS MANAGEMENT:\n1. Journal your thoughts (10-15 minutes of free writing)\n2. Take an outdoor walk (15-20 minutes, mindful movement)\n3. Practice mindfulness or meditation (apps: Headspace, Calm)\n4. Connect with your support network (call or text someone)\n5. Limit caffeine and prioritize sleep (7-9 hours)"
  else
    "✅ MAINTAIN YOUR BALANCE:\n1. Continue your healthy routines and self-care practices\n2. Engage in activities that bring you joy and fulfillment\n3. Stay connected with friends, family, and community\n4. Keep a gratitude journal (note 3 things daily)\n5. Exercise regularly and maintain good sleep hygiene\n6. Celebrate small wins and progress"

/-- `mindmate_front.py` lines 285-289 / 300-304 / 316-320: the three music
candidates per severity tier. -/
def music_options (sev : String) : List String :=
  if sev = "high" then
    [ "Weightless - Marconi Union (scientifically proven calming)"
    , "Spiegel im Spiegel - Arvo Pärt (deeply peaceful)"
    , "Clair de Lune - Debussy (gentle, soothing)"
    ]
  else if sev = "medium" then
    [ "Clair de Lune - Debussy (calming classical)"
    , "Pure Shores - All Saints (relaxing)"
    , "Nocturne in E-flat Major - Chopin (peaceful piano)"
    ]
  else
    [ "Here Comes The Sun - The Beatles (uplifting)"
    , "Three Little Birds - Bob Marley (positive vibes)"
    , "Good Vibrations - The Beach Boys (mood-boosting)"
    ]

/-- `mindmate_front.py` lines 290/305/321:
`music_options[hash(mood_text) % len(music_options)]`. The Python string
hash is an external, run-fixed function `h`; Python `%` with a positive
modulus is Euclidean remainder, matching `Int.emod`. -/
def mock_music (h : String → Int) (mood_text sev : String) : String :=
  (music_options sev).getD
    ((h mood_text % ((music_options sev).length : Int)).toNat) ("")

/-- The record returned by `mock_analyze_mood` (`mindmate_front.py`
lines 323-335). -/
structure MoodRecord where
  success : Bool
  record_id : String
  user_id : String
  mood : String
  primary_trigger : String
  trigger_scores : List (String × Nat)
  severity : String
  advice : String
  music_track : String
  deep_insight : String
  timestamp : String
deriving DecidableEq, Repr

/-- `mindmate_front.py` lines 159-335, `mock_analyze_mood`.
External collaborators are parameters: `h` is Python's string hash,
`md5hex` is `hashlib.md5(...).hexdigest()`, `now` is
`datetime.now().isoformat()` (the function calls `now()` twice; both calls
are modelled by the same string). A `KeyError` on the insight lookup
(caller-supplied severity outside low/medium/high) yields `none`, matching
the exception path of the enclosing `analyze_mood`. -/
def mock_analyze_mood (h : String → Int) (md5hex : String → String) (now : String)
    (user_id mood_text : String) (severity : Option String) : Option MoodRecord :=
  match mock_deep_insight (mock_primary_trigger mood_text) (mock_severity mood_text severity) with
  | none => none
  | some insight =>
    some
      { success := true
      , record_id := (md5hex (user_id ++ now)).take 12
      , user_id := user_id
      , mood := mood_text
      , primary_trigger := mock_primary_trigger mood_text
      , trigger_scores := mock_trigger_scores mood_text
      , severity := mock_severity mood_text severity
      , advice := mock_advice (mock_severity mood_text severity)
      , music_track := mock_music h mood_text (mock_severity mood_text severity)
      , deep_insight := insight
      , timestamp := now
      }

/-! ## `mindmate_frontend.py`: the weight-based variant (`analyze_mood`) -/

/-- Python float `0.7` of `mindmate_frontend.py`; modelled as the exact
rational 7/10 (the program only compares the weight constants with each
other, and those comparisons agree). Written with explicit numerator and
denominator so the kernel can evaluate comparisons. -/
def fw07 : ℚ := ⟨7, 10, by norm_num, by norm_num⟩

/-- Python float `0.75` of `mindmate_frontend.py`, as 3/4. -/
def fw075 : ℚ := ⟨3, 4, by norm_num, by norm_num⟩

/-- Python float `0.8` of `mindmate_frontend.py`, as 4/5. -/
def fw08 : ℚ := ⟨4, 5, by norm_num, by norm_num⟩

/-- Python float `0.85` of `mindmate_frontend.py`, as 17/20. -/
def fw085 : ℚ := ⟨17, 20, by norm_num, by norm_num⟩

/-- The seven (category, keyword list, weight) rows of
`mindmate_frontend.py` lines 83-96, in source order. -/
def fe_trigger_table : List (String × List String × ℚ) :=
  [ ("political", (["election", "government", "politics"], fw08))
  , ("social", (["people", "society", "community"], fw07))
  , ("environmental", (["climate", "environment", "pollution"], fw075))
  , ("work", (["work", "job", "boss", "career"], fw08))
  , ("relationship", (["relationship", "partner", "breakup"], fw085))
  , ("health", (["sick", "pain", "health"], fw08))
  , ("financial", (["money", "debt", "bills"], fw075))
  ]

/-- The seven category labels of `mindmate_frontend.py`, in source order. -/
def fe_trigger_names : List String := fe_trigger_table.map Prod.fst

/-- One `if any(word in text_lower for word in [...])` condition of
`mindmate_frontend.py` lines 83-96. -/
def fe_cond (kws : List String) (mood_text : String) : Bool :=
  kws.any (fun w => strInB w (lowerStr mood_text))

/-- The `trigger_scores` dict of `mindmate_frontend.py` lines 80-96 as a
function of the seven membership conditions: each `if` inserts its
category at its fixed weight, in source order. -/
def feScoresB (b1 b2 b3 b4 b5 b6 b7 : Bool) : List (String × ℚ) :=
  (bif b1 then [(("political"), fw08)] else []) ++
  (bif b2 then [(("social"), fw07)] else []) ++
  (bif b3 then [(("environmental"), fw075)] else []) ++
  (bif b4 then [(("work"), fw08)] else []) ++
  (bif b5 then [(("relationship"), fw085)] else []) ++
  (bif b6 then [(("health"), fw08)] else []) ++
  (bif b7 then [(("financial"), fw075)] else [])

/-- `mindmate_frontend.py` lines 80-96: the `trigger_scores` dict holds a
category (at its fixed weight) exactly when one of its keywords occurs in
the lower-cased text; insertion order is the source order of the checks. -/
def fe_trigger_scores (mood_text : String) : List (String × ℚ) :=
  feScoresB
    (fe_cond ["election", "government", "politics"] mood_text)
    (fe_cond ["people", "society", "community"] mood_text)
    (fe_cond ["climate", "environment", "pollution"] mood_text)
    (fe_cond ["work", "job", "boss", "career"] mood_text)
    (fe_cond ["relationship", "partner", "breakup"] mood_text)
    (fe_cond ["sick", "pain", "health"] mood_text)
    (fe_cond ["money", "debt", "bills"] mood_text)

/-- `mindmate_frontend.py` line 99:
`max(trigger_scores, key=trigger_scores.get) if trigger_scores else "other"`. -/
def fe_primary_trigger (mood_text : String) : String :=
  match fe_trigger_scores mood_text with
  | [] => "other"
  | x :: xs => (pyMax2 x xs).1

/-- `mindmate_frontend.py` line 103. -/
def stress_words : List String :=
  ["overwhelmed", "anxious", "depressed", "crisis", "help", "can\x27t"]

/-- `mindmate_frontend.py` lines 102-104: auto-detection returns "high" on
any stress word and otherwise "medium" (never "low"). -/
def fe_auto_severity (mood_text : String) : String :=
  if stress_words.any (fun w => strInB w (lowerStr mood_text)) then "high" else "medium"

/-- `mindmate_frontend.py` line 102 (`if not severity:`). -/
def fe_severity (mood_text : String) (severity : Option String) : String :=
  match severity with
  | none => fe_auto_severity mood_text
  | some s => if s = "" then fe_auto_severity mood_text else s

/-- `mindmate_frontend.py` lines 107-118: advice per severity tier. -/
def fe_advice (sev : String) : String :=
  if sev = "high" then
    "IMMEDIATE SUPPORT:\n• Deep breathing (4-7-8 technique)\n• Contact trusted person\n• Crisis line: 988\n• Remove from immediate stressors"
  else if sev = "medium" then
    "STRESS MANAGEMENT:\n• Journal your thoughts\n• 15-minute walk\n• Mindfulness practice\n• Connect with support network"
  else
    "MAINTAIN BALANCE:\n• Continue healthy routines\n• Engage in joy activities\n• Stay connected\n• Track mood patterns"

/-- `mindmate_frontend.py` lines 107-118: the single fixed music track per
severity tier. -/
def fe_music (sev : String) : String :=
  if sev = "high" then "Weightless - Marconi Union"
  else if sev = "medium" then "Clair de Lune - Debussy"
  else "Here Comes The Sun - The Beatles"

/-- `mindmate_frontend.py` lines 107-118: the single fixed insight sentence
per severity tier. -/
def fe_insight (sev : String) : String :=
  if sev = "high" then
    "Significant emotional distress detected. Professional support recommended."
  else if sev = "medium" then
    "Notable stress levels. Implementing coping strategies is beneficial."
  else
    "Manageable stress levels. Keep up the good work!"

/-- The record returned by `analyze_mood` (`mindmate_frontend.py`
lines 120-131); unlike the other file it has no `mood` field and its
scores are the float weights. -/
structure FeMoodRecord where
  success : Bool
  record_id : String
  user_id : String
  primary_trigger : String
  trigger_scores : List (String × ℚ)
  severity : String
  advice : String
  music_track : String
  deep_insight : String
  timestamp : String
deriving DecidableEq, Repr

/-- `mindmate_frontend.py` lines 73-131, `analyze_mood`. `nEntries` is
`len(st.session_state.entries)` at call time; `now` is
`datetime.now().isoformat()`. -/
def analyze_mood (now : String) (nEntries : Nat)
    (user_id mood_text : String) (severity : Option String) : FeMoodRecord :=
  { success := true
  , record_id := "entry_" ++ toString (nEntries + 1)
  , user_id := user_id
  , primary_trigger := fe_primary_trigger mood_text
  , trigger_scores := fe_trigger_scores mood_text
  , severity := fe_severity mood_text severity
  , advice := fe_advice (fe_severity mood_text severity)
  , music_track := fe_music (fe_severity mood_text severity)
  , deep_insight := fe_insight (fe_severity mood_text severity)
  , timestamp := now
  }

/-! ## Store operations (`mindmate_front.py` UI handlers) -/

/-- `mindmate_front.py` lines 699-702: the per-entry delete button runs
`st.session_state.entries.remove(entry)`, which removes the first element
equal to `entry`. -/
def delete_entry (entries : List MoodRecord) (e : MoodRecord) : List MoodRecord :=
  entries.erase e

/-- `mindmate_front.py` lines 392-396: the Clear My Data button keeps
exactly the entries whose `user_id` differs from the current user. -/
def clear_user_data (entries : List MoodRecord) (current_user : String) : List MoodRecord :=
  entries.filter (fun e => e.user_id ≠ current_user)

/-! ## Spec-side definitions (used to state the claims against the code) -/

/-- The three severity tiers of the spec. -/
def severity_levels : List String := ["low", "medium", "high"]

/-- Modelled from the spec: "counting how many of its associated keywords
occur as substrings (case-insensitive) in the text". -/
def spec_keyword_count (mood_text : String) (kws : List String) : Nat :=
  (kws.filter (fun kw => strInB kw (lowerStr mood_text))).length

/-- Running maximum of the second components, started at the head's. -/
def maxSnd {α β : Type} [LinearOrder β] (x : α × β) (l : List (α × β)) : β :=
  l.foldl (fun a p => max a p.2) x.2

/-- Modelled from the spec: "category with the maximum score; tie-break =
first category in a fixed enumeration order" — the first key of the list
whose score equals the maximum score. -/
def firstArgmaxKey {α β : Type} [LinearOrder β] (l : List (α × β)) : Option α :=
  match l with
  | [] => none
  | x :: xs => ((x :: xs).find? (fun p => decide (p.2 = maxSnd x xs))).map Prod.fst

/-- Helper for `fe_full_scores`: every category of the frontend table with
its weight when its condition holds and 0 otherwise. -/
def feFullB (b1 b2 b3 b4 b5 b6 b7 : Bool) : List (String × ℚ) :=
  [ (("political"), bif b1 then fw08 else 0)
  , (("social"), bif b2 then fw07 else 0)
  , (("environmental"), bif b3 then fw075 else 0)
  , (("work"), bif b4 then fw08 else 0)
  , (("relationship"), bif b5 then fw085 else 0)
  , (("health"), bif b6 then fw08 else 0)
  , (("financial"), bif b7 then fw075 else 0)
  ]

/-- Modelled from the spec: the frontend variant's scores extended to every
category of its table, scoring 0 when no keyword matches. -/
def fe_full_scores (mood_text : String) : List (String × ℚ) :=
  feFullB
    (fe_cond ["election", "government", "politics"] mood_text)
    (fe_cond ["people", "society", "community"] mood_text)
    (fe_cond ["climate", "environment", "pollution"] mood_text)
    (fe_cond ["work", "job", "boss", "career"] mood_text)
    (fe_cond ["relationship", "partner", "breakup"] mood_text)
    (fe_cond ["sick", "pain", "health"] mood_text)
    (fe_cond ["money", "debt", "bills"] mood_text)

/-- The analysis outputs of a `mock_analyze_mood` record other than the
identifier fields (`record_id`, `user_id`) and the echoes of the input
(`mood`, `timestamp`). -/
def mock_analysis_view (r : MoodRecord) :
    String × List (String × Nat) × String × String × String × String :=
  (r.primary_trigger, r.trigger_scores, r.severity, r.advice, r.music_track, r.deep_insight)

/-- The analysis outputs of an `analyze_mood` record other than the
identifier fields and the timestamp. -/
def fe_analysis_view (r : FeMoodRecord) :
    String × List (String × ℚ) × String × String × String × String :=
  (r.primary_trigger, r.trigger_scores, r.severity, r.advice, r.music_track, r.deep_insight)

/-- A concrete record used to instantiate the store claims. -/
def sample_record (rid uid : String) : MoodRecord :=
  { success := true
  , record_id := rid
  , user_id := uid
  , mood := "m"
  , primary_trigger := "other"
  , trigger_scores := []
  , severity := "low"
  , advice := "a"
  , music_track := "mu"
  , deep_insight := "i"
  , timestamp := "t"
  }

/-- Every keyword list of both classifiers, concatenated (used for the
whitespace-text claims). -/
def all_keywords : List String :=
  high_words ++ medium_words ++ stress_words ++
    (trigger_keywords.map Prod.snd).flatten ++
    [("election"), ("government"), ("politics"), ("people"), ("society"),
     ("community"), ("climate"), ("environment"), ("pollution"), ("work"),
     ("job"), ("boss"), ("career"), ("relationship"), ("partner"),
     ("breakup"), ("sick"), ("pain"), ("health"), ("money"), ("debt"),
     ("bills")]

/-- A concrete stand-in for the external Python string hash, used to
instantiate theorems about the hash-parameterised functions. -/
def hash0 : String → Int := fun s => (s.length : Int)

/-- A concrete stand-in for the external `hashlib.md5(...).hexdigest()`. -/
def md5hex0 : String → String := fun s => s

/-! ## The Python `max` refinement: `pyMax2` returns the first maximal pair -/

theorem le_maxSnd_start {α β : Type} [LinearOrder β] (l : List (α × β)) :
    ∀ x : α × β, x.2 ≤ maxSnd x l := by
  induction l with
  | nil => intro x; simp [maxSnd]
  | cons y ys ih =>
    intro x
    have h2 := ih (x.1, max x.2 y.2)
    simp only [maxSnd, List.foldl] at h2 ⊢
    exact le_trans (le_max_left _ _) h2

theorem maxSnd_cons {α β : Type} [LinearOrder β] (x y : α × β) (ys : List (α × β)) :
    maxSnd x (y :: ys) = maxSnd (if x.2 < y.2 then y else x) ys := by
  have hsnd : (if x.2 < y.2 then y else x).2 = max x.2 y.2 := by
    by_cases h : x.2 < y.2
    · simp [h, max_eq_right (le_of_lt h)]
    · simp [h, max_eq_left (not_lt.mp h)]
  simp [maxSnd, hsnd]

theorem find_eq_pyMax2 {α β : Type} [LinearOrder β] :
    ∀ (l : List (α × β)) (x : α × β),
      (x :: l).find? (fun p => decide (p.2 = maxSnd x l)) = some (pyMax2 x l) := by
  intro l
  induction l with
  | nil => intro x; simp [maxSnd, pyMax2, List.find?]
  | cons y ys ih =>
    intro x
    rw [maxSnd_cons]
    by_cases hxy : x.2 < y.2
    · rw [if_pos hxy]
      have hy2 : y.2 ≤ maxSnd y ys := le_maxSnd_start ys y
      have hxne : ¬ x.2 = maxSnd y ys := ne_of_lt (lt_of_lt_of_le hxy hy2)
      rw [show pyMax2 x (y :: ys) = pyMax2 y ys by simp [pyMax2, hxy]]
      rw [List.find?_cons_of_neg _ (by simpa using hxne)]
      exact ih y
    · rw [if_neg hxy]
      rw [show pyMax2 x (y :: ys) = pyMax2 x ys by simp [pyMax2, hxy]]
      have hIH := ih x
      by_cases hx : x.2 = maxSnd x ys
      · rw [List.find?_cons_of_pos _ (by simpa using hx)]
        rw [List.find?_cons_of_pos _ (by simpa using hx)] at hIH
        exact hIH
      · have hxlt : x.2 < maxSnd x ys := lt_of_le_of_ne (le_maxSnd_start ys x) hx
        have hyne : ¬ y.2 = maxSnd x ys :=
          ne_of_lt (lt_of_le_of_lt (not_lt.mp hxy) hxlt)
        rw [List.find?_cons_of_neg _ (by simpa using hx),
          List.find?_cons_of_neg _ (by simpa using hyne)]
        rw [List.find?_cons_of_neg _ (by simpa using hx)] at hIH
        exact hIH

theorem pyMax2_mem {α β : Type} [LinearOrder β] (l : List (α × β)) (x : α × β) :
    pyMax2 x l ∈ x :: l :=
  List.mem_of_find?_eq_some (find_eq_pyMax2 l x)

theorem pyMax2_snd {α β : Type} [LinearOrder β] (l : List (α × β)) (x : α × β) :
    (pyMax2 x l).2 = maxSnd x l := by
  have h := List.find?_some (find_eq_pyMax2 l x)
  exact of_decide_eq_true h

/-! ## Shared helper lemmas -/

/-- `List.any` of a substring check, as an existential. -/
theorem anyB_iff (ws : List String) (s : String) :
    (ws.any (fun w => strInB w s)) = true ↔ ∃ w ∈ ws, strIn w s := by
  simp [List.any_eq_true, strInB]

theorem mem_snd_of_lookup {α β : Type} [BEq α] {l : List (α × β)} {k : α} {v : β}
    (h : l.lookup k = some v) : v ∈ l.map Prod.snd := by
  induction l with
  | nil => simp [List.lookup] at h
  | cons p ps ih =>
    obtain ⟨a, b⟩ := p
    rw [List.lookup_cons] at h
    cases hk : (k == a) with
    | true => rw [hk] at h; cases h; simp
    | false =>
      rw [hk] at h
      simp only [List.map, List.mem_cons]
      exact Or.inr (ih h)

/-- Every insight-table row has a sentence for each severity level. -/
theorem row_lookup_isSome :
    ∀ row ∈ trigger_insights.map Prod.snd, ∀ s ∈ severity_levels,
      (row.lookup s).isSome := by decide

theorem mock_deep_insight_isSome (primary s : String) (hs : s ∈ severity_levels) :
    (mock_deep_insight primary s).isSome := by
  unfold mock_deep_insight
  cases h : trigger_insights.lookup primary with
  | none => simp
  | some row =>
    have hrow := mem_snd_of_lookup h
    have hsome := row_lookup_isSome row hrow s hs
    cases hlk : row.lookup s with
    | none => rw [hlk] at hsome; simp at hsome
    | some mid => simp [hlk]

/-- Unfolding of `mock_analyze_mood` when the insight lookup succeeds. -/
theorem mock_analyze_mood_eq_some (h : String → Int) (md5hex : String → String)
    (now u t : String) (sev : Option String) (i : String)
    (hi : mock_deep_insight (mock_primary_trigger t) (mock_severity t sev) = some i) :
    mock_analyze_mood h md5hex now u t sev = some
      { success := true
      , record_id := (md5hex (u ++ now)).take 12
      , user_id := u
      , mood := t
      , primary_trigger := mock_primary_trigger t
      , trigger_scores := mock_trigger_scores t
      , severity := mock_severity t sev
      , advice := mock_advice (mock_severity t sev)
      , music_track := mock_music h t (mock_severity t sev)
      , deep_insight := i
      , timestamp := now
      } := by
  unfold mock_analyze_mood
  rw [hi]

theorem mock_auto_severity_mem (t : String) :
    mock_auto_severity t ∈ severity_levels := by
  unfold mock_auto_severity severity_levels
  split_ifs <;> simp

theorem mock_severity_mem (t : String) (sev : Option String)
    (hs : sev = none ∨ sev = some ("low") ∨ sev = some ("medium") ∨ sev = some ("high")) :
    mock_severity t sev ∈ severity_levels := by
  rcases hs with rfl | rfl | rfl | rfl
  · exact mock_auto_severity_mem t
  all_goals simp [mock_severity, severity_levels]

theorem fe_auto_severity_mem (t : String) :
    fe_auto_severity t ∈ severity_levels := by
  unfold fe_auto_severity severity_levels
  split_ifs <;> simp

theorem fe_severity_mem (t : String) (sev : Option String)
    (hs : sev = none ∨ sev = some ("low") ∨ sev = some ("medium") ∨ sev = some ("high")) :
    fe_severity t sev ∈ severity_levels := by
  rcases hs with rfl | rfl | rfl | rfl
  · exact fe_auto_severity_mem t
  all_goals simp [fe_severity, severity_levels]

/-- The primary trigger of `mock_analyze_mood` is a table category or
"other". -/
theorem mock_primary_mem (t : String) :
    mock_primary_trigger t ∈ ("other") :: trigger_names := by
  unfold mock_primary_trigger
  by_cases hany : ((mock_trigger_scores t).any (fun p => p.2 ≠ 0)) = true
  · simp only [hany, if_true]
    have hmem := pyMax2_mem (mock_trigger_scores t).tail (mock_trigger_scores t).head!
    have hfst : ∀ p ∈ mock_trigger_scores t, p.1 ∈ trigger_names := by
      intro p hp
      have : p.1 ∈ (mock_trigger_scores t).map Prod.fst := List.mem_map_of_mem Prod.fst hp
      simpa [mock_trigger_scores, trigger_names, List.map_map] using this
    have hcons : mock_trigger_scores t =
        (mock_trigger_scores t).head! :: (mock_trigger_scores t).tail := rfl
    rw [hcons] at hfst
    exact List.mem_cons_of_mem _ (hfst _ hmem)
  · simp only [hany]
    simp

/-- ASCII lower-casing sends whitespace characters to themselves. -/
theorem toLower_whitespace (c : Char) (h : c.isWhitespace) :
    (Char.toLower c).isWhitespace := by
  have h' : c = ' ' ∨ c = '\t' ∨ c = '\r' ∨ c = '\n' := by
    simpa [Char.isWhitespace, or_assoc] using h
  rcases h' with rfl | rfl | rfl | rfl <;> decide

/-- A keyword with a non-whitespace character never occurs as a substring
of the lower-cased form of an all-whitespace text. -/
theorem no_kw_in_whitespace (t kw : String)
    (hws : ∀ c ∈ t.data, c.isWhitespace)
    (hkw : ∃ c ∈ kw.data, ¬ c.isWhitespace) :
    ¬ strIn kw (lowerStr t) := by
  intro hinf
  obtain ⟨c, hc, hcw⟩ := hkw
  have hsub : c ∈ (lowerStr t).data := hinf.subset hc
  simp only [lowerStr, List.mem_map] at hsub
  obtain ⟨c', hc', hmap⟩ := hsub
  exact hcw (hmap ▸ toLower_whitespace c' (hws c' hc'))

/-- Every keyword of every list in the program contains a non-whitespace
character. -/
theorem all_kws_nonws : ∀ kw ∈ all_keywords, ∃ c ∈ kw.data, ¬ c.isWhitespace := by
  decide

/-- With unique record ids, Python `list.remove` is a filter on the id. -/
theorem erase_eq_filter_of_nodup_ids :
    ∀ (l : List MoodRecord) (e : MoodRecord), e ∈ l →
      (l.map MoodRecord.record_id).Nodup →
      l.erase e = l.filter (fun x => x.record_id ≠ e.record_id) := by
  intro l
  induction l with
  | nil => intro e he; simp at he
  | cons a rest ih =>
    intro e he hnd
    simp only [List.map, List.nodup_cons] at hnd
    obtain ⟨hna, hndr⟩ := hnd
    by_cases hae : a = e
    · subst hae
      rw [List.erase_cons_head]
      have hstep : List.filter (fun x => decide (x.record_id ≠ a.record_id)) (a :: rest)
          = List.filter (fun x => decide (x.record_id ≠ a.record_id)) rest := by
        rw [List.filter_cons]
        simp
      rw [hstep]
      symm
      rw [List.filter_eq_self]
      intro x hx
      have : x.record_id ∈ rest.map MoodRecord.record_id :=
        List.mem_map_of_mem MoodRecord.record_id hx
      simp only [decide_eq_true_eq]
      intro hcontra
      exact hna (by rw [← hcontra]; exact this)
    · have herest : e ∈ rest := by
        rcases List.mem_cons.mp he with h | h
        · exact absurd h.symm hae
        · exact h
      rw [List.erase_cons_tail]
      · have haid : a.record_id ≠ e.record_id := by
          intro hcontra
          exact hna (hcontra ▸ List.mem_map_of_mem MoodRecord.record_id herest)
        rw [List.filter_cons_of_pos (by simpa using haid)]
        rw [ih e herest hndr]
      · simpa using Ne.symm (fun h => hae h.symm)

/-- Membership in a conditional singleton. -/
theorem mem_condSingleton {γ : Type} (a x : γ) (b : Bool) :
    a ∈ (bif b then [x] else []) ↔ (b = true ∧ a = x) := by
  cases b <;> simp

/-- The frontend primary trigger / score invariants, checked over all 128
combinations of the seven membership conditions. -/
theorem fe_cube :
    ∀ b1 b2 b3 b4 b5 b6 b7 : Bool,
      ((match feScoresB b1 b2 b3 b4 b5 b6 b7 with
        | [] => ("other")
        | x :: xs => (pyMax2 x xs).1) = "other" ↔
        ∀ p ∈ feFullB b1 b2 b3 b4 b5 b6 b7, p.2 = 0) ∧
      ((∃ p ∈ feFullB b1 b2 b3 b4 b5 b6 b7, p.2 ≠ 0) →
        firstArgmaxKey (feFullB b1 b2 b3 b4 b5 b6 b7) =
          some (match feScoresB b1 b2 b3 b4 b5 b6 b7 with
            | [] => ("other")
            | x :: xs => (pyMax2 x xs).1)) := by decide

/-- The keys of the frontend score dict always come from its seven
categories. -/
theorem feScoresB_fst_mem :
    ∀ b1 b2 b3 b4 b5 b6 b7 : Bool,
      ∀ p ∈ feScoresB b1 b2 b3 b4 b5 b6 b7, p.1 ∈ fe_trigger_names := by decide

set_option maxRecDepth 40000 in
/-- The three-part shape of the mock insight for every valid trigger and
severity. -/
theorem mock_insight_parts (primary s : String)
    (hp : primary ∈ ("other") :: trigger_names) (hs : s ∈ severity_levels) :
    mock_deep_insight primary s =
      some (mock_base_insight s ++ " " ++
        ((((trigger_insights.lookup primary).getD []).lookup s).getD ("")) ++ " " ++
        mock_closing_insight s) ∧
    (((trigger_insights.lookup primary).getD []).lookup s).isSome := by
  fin_cases hp <;> fin_cases hs <;> exact ⟨by decide, by decide⟩

/-- `firstArgmaxKey` of a non-empty list is the Python `max` result. -/
theorem firstArgmax_of_ne {α β : Type} [LinearOrder β] (l : List (α × β)) (other : α)
    (hl : l ≠ []) :
    firstArgmaxKey l =
      some (match l with | [] => other | x :: xs => (pyMax2 x xs).1) := by
  cases l with
  | nil => cases hl rfl
  | cons x xs => simp [firstArgmaxKey, find_eq_pyMax2]

/-- Each severity tier has exactly three music candidates. -/
theorem music_options_length (s : String) : (music_options s).length = 3 := by
  unfold music_options
  split_ifs <;> rfl

/-! ## Claims -/

/-- C4: for every mood text and every explicitly supplied severity in
{low, medium, high}, both classifiers return exactly that severity in the
result; the keyword lists are never consulted (the result severity is the
supplied one for every text). -/
theorem claim_C4 (hash : String → Int) (md5hex : String → String)
    (now u t s : String) (n : Nat) (hs : s ∈ severity_levels) :
    (∃ r, mock_analyze_mood hash md5hex now u t (some s) = some r ∧ r.severity = s) ∧
    (analyze_mood now n u t (some s)).severity = s := by
  have hne : s ≠ "" := by fin_cases hs <;> decide
  have hsev : mock_severity t (some s) = s := by simp [mock_severity, hne]
  constructor
  · obtain ⟨i, hi⟩ := Option.isSome_iff_exists.mp
      (mock_deep_insight_isSome (mock_primary_trigger t) (mock_severity t (some s))
        (by rw [hsev]; exact hs))
    exact ⟨_, mock_analyze_mood_eq_some hash md5hex now u t (some s) i hi, hsev⟩
  · show fe_severity t (some s) = s
    simp [fe_severity, hne]

/-- Witness for C4 at a concrete severity and text. -/
theorem claim_C4_witness :
    (("high") ∈ severity_levels) ∧
    ((∃ r, mock_analyze_mood hash0 md5hex0 ("t0") ("u0") ("a mood") (some ("high")) = some r ∧
        r.severity = "high") ∧
      (analyze_mood ("t0") 0 ("u0") ("a mood") (some ("high"))).severity = "high") :=
  ⟨by decide, claim_C4 hash0 md5hex0 ("t0") ("u0") ("a mood") ("high") 0 (by decide)⟩

/-- C10: the analysis outputs (primary trigger, scores, severity, advice,
music, insight) of both classifiers do not depend on the user id; only the
identifier fields can differ between calls with different users. -/
theorem claim_C10 (hash : String → Int) (md5hex : String → String)
    (now u1 u2 t : String) (sev : Option String) (n : Nat) :
    (mock_analyze_mood hash md5hex now u1 t sev).map mock_analysis_view =
      (mock_analyze_mood hash md5hex now u2 t sev).map mock_analysis_view ∧
    fe_analysis_view (analyze_mood now n u1 t sev) =
      fe_analysis_view (analyze_mood now n u2 t sev) := by
  constructor
  · cases h : mock_deep_insight (mock_primary_trigger t) (mock_severity t sev) with
    | none => simp [mock_analyze_mood, h]
    | some i => simp [mock_analyze_mood, h, mock_analysis_view]
  · simp only [analyze_mood, fe_analysis_view]

/-- Counterexample to C1: for a text with no keyword from any severity
list and no supplied severity, the `mindmate_frontend.py` classifier
returns "medium", while the claim requires "low". -/
theorem claim_C1_counterexample :
    (analyze_mood ("ts") 0 ("u") ("hello there") none).severity = "medium" ∧
    high_words.all (fun w => !strInB w (lowerStr ("hello there"))) = true ∧
    medium_words.all (fun w => !strInB w (lowerStr ("hello there"))) = true ∧
    stress_words.all (fun w => !strInB w (lowerStr ("hello there"))) = true ∧
    ("medium" : String) ≠ ("low") := by decide

/-- C1 (amended): with no supplied severity, `mock_analyze_mood` returns
"high" if any high-list keyword occurs (regardless of medium keywords),
else "medium" if any medium-list keyword occurs, else "low". The
`mindmate_frontend.py` classifier instead checks a single stress-word
list: "high" on any match, otherwise "medium" (never "low"). -/
theorem claim_C1 (hash : String → Int) (md5hex : String → String)
    (now u t : String) (n : Nat) :
    (∃ r, mock_analyze_mood hash md5hex now u t none = some r ∧
      r.severity =
        (if ∃ w ∈ high_words, strIn w (lowerStr t) then ("high")
         else if ∃ w ∈ medium_words, strIn w (lowerStr t) then ("medium")
         else ("low"))) ∧
    (analyze_mood now n u t none).severity =
      (if ∃ w ∈ stress_words, strIn w (lowerStr t) then ("high") else ("medium")) := by
  have hbridge : mock_auto_severity t =
      (if ∃ w ∈ high_words, strIn w (lowerStr t) then ("high")
       else if ∃ w ∈ medium_words, strIn w (lowerStr t) then ("medium")
       else ("low")) := by
    unfold mock_auto_severity
    by_cases h1 : ∃ w ∈ high_words, strIn w (lowerStr t)
    · rw [if_pos ((anyB_iff _ _).mpr h1), if_pos h1]
    · rw [if_neg (fun hc => h1 ((anyB_iff _ _).mp hc)), if_neg h1]
      by_cases h2 : ∃ w ∈ medium_words, strIn w (lowerStr t)
      · rw [if_pos ((anyB_iff _ _).mpr h2), if_pos h2]
      · rw [if_neg (fun hc => h2 ((anyB_iff _ _).mp hc)), if_neg h2]
  constructor
  · obtain ⟨i, hi⟩ := Option.isSome_iff_exists.mp
      (mock_deep_insight_isSome (mock_primary_trigger t) (mock_severity t none)
        (mock_auto_severity_mem t))
    exact ⟨_, mock_analyze_mood_eq_some hash md5hex now u t none i hi, hbridge⟩
  · show fe_auto_severity t = _
    unfold fe_auto_severity
    by_cases h3 : ∃ w ∈ stress_words, strIn w (lowerStr t)
    · rw [if_pos ((anyB_iff _ _).mpr h3), if_pos h3]
    · rw [if_neg (fun hc => h3 ((anyB_iff _ _).mp hc)), if_neg h3]

/-- Counterexample to C7: on the empty text with no supplied severity the
`mindmate_frontend.py` classifier yields severity "medium", while the
claim requires "low". -/
theorem claim_C7_counterexample :
    (analyze_mood ("ts") 0 ("u") ("") none).severity = "medium" ∧
    (analyze_mood ("ts") 0 ("u") ("") none).primary_trigger = "other" ∧
    (analyze_mood ("ts") 0 ("u") ("") none).trigger_scores = [] ∧
    ("medium" : String) ≠ ("low") := by decide

/-- C7 (amended): with no supplied severity neither classifier has an
error condition (`mock_analyze_mood` returns a record for every text), and
on empty or whitespace-only text all trigger scores are zero and the
primary trigger is "other"; `mock_analyze_mood` then yields severity
"low", while the `mindmate_frontend.py` classifier yields "medium". -/
theorem claim_C7 (hash : String → Int) (md5hex : String → String)
    (now u : String) (n : Nat) (t : String)
    (hws : ∀ c ∈ t.data, c.isWhitespace) :
    (∀ t2 : String, ∃ r, mock_analyze_mood hash md5hex now u t2 none = some r) ∧
    (∃ r, mock_analyze_mood hash md5hex now u t none = some r ∧
      (∀ p ∈ r.trigger_scores, p.2 = 0) ∧
      r.primary_trigger = "other" ∧ r.severity = "low") ∧
    ((analyze_mood now n u t none).trigger_scores = [] ∧
      (analyze_mood now n u t none).primary_trigger = "other" ∧
      (analyze_mood now n u t none).severity = "medium") := by
  have hnone : ∀ kw ∈ all_keywords, ¬ strIn kw (lowerStr t) :=
    fun kw hkw => no_kw_in_whitespace t kw hws (all_kws_nonws kw hkw)
  have hrowsub : ∀ row ∈ trigger_keywords, ∀ kw ∈ row.2, kw ∈ all_keywords := by decide
  have hhighsub : ∀ kw ∈ high_words, kw ∈ all_keywords := by decide
  have hmedsub : ∀ kw ∈ medium_words, kw ∈ all_keywords := by decide
  have hstresssub : ∀ kw ∈ stress_words, kw ∈ all_keywords := by decide
  have hscores : ∀ p ∈ mock_trigger_scores t, p.2 = 0 := by
    intro p hp
    simp only [mock_trigger_scores, List.mem_map] at hp
    obtain ⟨row, hrow, rfl⟩ := hp
    show mock_score (lowerStr t) row.2 = 0
    unfold mock_score
    rw [List.countP_eq_zero]
    intro kw hkw
    simpa [strInB] using hnone kw (hrowsub row hrow kw hkw)
  have hanyfalse : ((mock_trigger_scores t).any (fun p => p.2 ≠ 0)) = false := by
    rw [List.any_eq_false]
    intro p hp
    simpa using hscores p hp
  have hprimary : mock_primary_trigger t = "other" := by
    unfold mock_primary_trigger
    rw [hanyfalse]
    simp
  have hhigh : (high_words.any (fun w => strInB w (lowerStr t))) = false := by
    rw [List.any_eq_false]
    intro w hw
    simpa [strInB] using hnone w (hhighsub w hw)
  have hmed : (medium_words.any (fun w => strInB w (lowerStr t))) = false := by
    rw [List.any_eq_false]
    intro w hw
    simpa [strInB] using hnone w (hmedsub w hw)
  have hstress : (stress_words.any (fun w => strInB w (lowerStr t))) = false := by
    rw [List.any_eq_false]
    intro w hw
    simpa [strInB] using hnone w (hstresssub w hw)
  have hsev : mock_severity t none = "low" := by
    show mock_auto_severity t = "low"
    unfold mock_auto_severity
    rw [hhigh, hmed]
    simp
  have hfesev : fe_severity t none = "medium" := by
    show fe_auto_severity t = "medium"
    unfold fe_auto_severity
    rw [hstress]
    simp
  have hfec : ∀ kws : List String, (∀ kw ∈ kws, kw ∈ all_keywords) →
      fe_cond kws t = false := by
    intro kws hsub
    unfold fe_cond
    rw [List.any_eq_false]
    intro w hw
    simpa [strInB] using hnone w (hsub w hw)
  have hsc : fe_trigger_scores t = [] := by
    unfold fe_trigger_scores
    rw [hfec _ (by decide), hfec _ (by decide), hfec _ (by decide), hfec _ (by decide),
      hfec _ (by decide), hfec _ (by decide), hfec _ (by decide)]
    rfl
  have hfeprim : fe_primary_trigger t = "other" := by
    unfold fe_primary_trigger
    rw [hsc]
  refine ⟨?_, ?_, ?_⟩
  · intro t2
    obtain ⟨i, hi⟩ := Option.isSome_iff_exists.mp
      (mock_deep_insight_isSome (mock_primary_trigger t2) (mock_severity t2 none)
        (mock_auto_severity_mem t2))
    exact ⟨_, mock_analyze_mood_eq_some hash md5hex now u t2 none i hi⟩
  · obtain ⟨i, hi⟩ := Option.isSome_iff_exists.mp
      (mock_deep_insight_isSome (mock_primary_trigger t) (mock_severity t none)
        (mock_auto_severity_mem t))
    exact ⟨_, mock_analyze_mood_eq_some hash md5hex now u t none i hi,
      hscores, hprimary, hsev⟩
  · exact ⟨hsc, hfeprim, hfesev⟩

/-- Witness for C7 on the one-space text. -/
theorem claim_C7_witness :
    (∀ c ∈ (" " : String).data, c.isWhitespace) ∧
    ((∀ t2 : String, ∃ r, mock_analyze_mood hash0 md5hex0 ("t0") ("u0") t2 none = some r) ∧
      (∃ r, mock_analyze_mood hash0 md5hex0 ("t0") ("u0") (" ") none = some r ∧
        (∀ p ∈ r.trigger_scores, p.2 = 0) ∧
        r.primary_trigger = "other" ∧ r.severity = "low") ∧
      ((analyze_mood ("t0") 0 ("u0") (" ") none).trigger_scores = [] ∧
        (analyze_mood ("t0") 0 ("u0") (" ") none).primary_trigger = "other" ∧
        (analyze_mood ("t0") 0 ("u0") (" ") none).severity = "medium")) :=
  ⟨by decide, claim_C7 hash0 md5hex0 ("t0") ("u0") 0 (" ") (by decide)⟩

/-- Counterexample to C2: on the text "work job" the
`mindmate_frontend.py` classifier scores the "work" category 0.8, while
two of its keywords occur, so the score is not the keyword count. -/
theorem claim_C2_counterexample :
    (fe_trigger_scores ("work job")).lookup ("work") = some fw08 ∧
    spec_keyword_count ("work job") ["work", "job", "boss", "career"] = 2 ∧
    fw08 ≠ (2 : ℚ) ∧ fw08 ≠ (1 : ℚ) := by decide

/-- C2 (amended): in `mock_analyze_mood` every category's trigger score is
the count of its keywords occurring case-insensitively in the text; in
`mindmate_frontend.py` a category is present (at its fixed heuristic
weight) exactly when one of its keywords occurs, and absent otherwise. -/
theorem claim_C2 (t : String) :
    (∀ cat kws, (cat, kws) ∈ trigger_keywords →
      (mock_trigger_scores t).lookup cat = some (spec_keyword_count t kws)) ∧
    (∀ cat kws w, (cat, (kws, w)) ∈ fe_trigger_table →
      (((cat, w) ∈ fe_trigger_scores t) ↔ ∃ kw ∈ kws, strIn kw (lowerStr t)) ∧
      (∀ v : ℚ, (cat, v) ∈ fe_trigger_scores t → v = w)) := by
  constructor
  · intro cat kws hmem
    fin_cases hmem <;>
      simp [mock_trigger_scores, trigger_keywords, List.lookup, mock_score,
        spec_keyword_count, List.countP_eq_length_filter]
  · intro cat kws w hmem
    fin_cases hmem <;> constructor <;>
      simp [fe_trigger_scores, feScoresB, mem_condSingleton, fe_cond,
        List.mem_append, strInB, decide_eq_true_eq]

/-- C3: in both classifiers the primary trigger is the first category (in
the table's enumeration order) attaining the maximum trigger score, and it
is "other" exactly when every category scores zero (for the frontend
variant, scores extended by zero to absent categories). -/
theorem claim_C3 (t : String) :
    ((mock_primary_trigger t = "other") ↔ ∀ p ∈ mock_trigger_scores t, p.2 = 0) ∧
    ((∃ p ∈ mock_trigger_scores t, p.2 ≠ 0) →
      firstArgmaxKey (mock_trigger_scores t) = some (mock_primary_trigger t)) ∧
    ((fe_primary_trigger t = "other") ↔ ∀ p ∈ fe_full_scores t, p.2 = 0) ∧
    ((∃ p ∈ fe_full_scores t, p.2 ≠ 0) →
      firstArgmaxKey (fe_full_scores t) = some (fe_primary_trigger t)) := by
  have hne : mock_trigger_scores t ≠ [] := by
    simp [mock_trigger_scores, trigger_keywords]
  have hmapfst : (mock_trigger_scores t).map Prod.fst = trigger_names := rfl
  refine ⟨⟨?_, ?_⟩, ?_, ?_, ?_⟩
  · intro hother p hp
    by_contra hpz
    have hany : ((mock_trigger_scores t).any (fun q => q.2 ≠ 0)) = true := by
      rw [List.any_eq_true]
      exact ⟨p, hp, by simpa using hpz⟩
    have hprimmem : mock_primary_trigger t ∈ trigger_names := by
      unfold mock_primary_trigger
      rw [if_pos hany]
      cases hc : mock_trigger_scores t with
      | nil => exact absurd hc hne
      | cons x xs =>
        have hm : pyMax2 x xs ∈ mock_trigger_scores t := by
          rw [hc]; exact pyMax2_mem xs x
        have := List.mem_map_of_mem Prod.fst hm
        rw [hmapfst] at this
        exact this
    rw [hother] at hprimmem
    exact absurd hprimmem (by decide)
  · intro hall
    have hany : ((mock_trigger_scores t).any (fun q => q.2 ≠ 0)) = false := by
      rw [List.any_eq_false]
      intro p hp
      simpa using hall p hp
    unfold mock_primary_trigger
    rw [hany]
    simp
  · intro hex
    have hany : ((mock_trigger_scores t).any (fun q => q.2 ≠ 0)) = true := by
      rw [List.any_eq_true]
      obtain ⟨p, hp, hpz⟩ := hex
      exact ⟨p, hp, by simpa using hpz⟩
    have hprim : mock_primary_trigger t =
        (match mock_trigger_scores t with
         | [] => ("other")
         | x :: xs => (pyMax2 x xs).1) := by
      unfold mock_primary_trigger
      rw [if_pos hany]
    rw [hprim]
    exact firstArgmax_of_ne _ ("other") hne
  · exact (fe_cube (fe_cond ["election", "government", "politics"] t)
      (fe_cond ["people", "society", "community"] t)
      (fe_cond ["climate", "environment", "pollution"] t)
      (fe_cond ["work", "job", "boss", "career"] t)
      (fe_cond ["relationship", "partner", "breakup"] t)
      (fe_cond ["sick", "pain", "health"] t)
      (fe_cond ["money", "debt", "bills"] t)).1
  · exact (fe_cube (fe_cond ["election", "government", "politics"] t)
      (fe_cond ["people", "society", "community"] t)
      (fe_cond ["climate", "environment", "pollution"] t)
      (fe_cond ["work", "job", "boss", "career"] t)
      (fe_cond ["relationship", "partner", "breakup"] t)
      (fe_cond ["sick", "pain", "health"] t)
      (fe_cond ["money", "debt", "bills"] t)).2

/-- Witness for C3: the argmax characterisation at concrete texts with a
nonzero score in each classifier. -/
theorem claim_C3_witness :
    (∃ p ∈ mock_trigger_scores ("I am stressed about my exam tomorrow"), p.2 ≠ 0) ∧
    firstArgmaxKey (mock_trigger_scores ("I am stressed about my exam tomorrow")) =
      some (mock_primary_trigger ("I am stressed about my exam tomorrow")) ∧
    (∃ p ∈ fe_full_scores ("money trouble"), p.2 ≠ 0) ∧
    firstArgmaxKey (fe_full_scores ("money trouble")) =
      some (fe_primary_trigger ("money trouble")) :=
  ⟨by decide,
   (claim_C3 ("I am stressed about my exam tomorrow")).2.1 (by decide),
   by decide,
   (claim_C3 ("money trouble")).2.2.2 (by decide)⟩

/-- Counterexample to C5: at severity "high" the `mindmate_frontend.py`
classifier returns a track that is not any of the three candidates of the
program's high-tier music list, so it is not chosen from that list. -/
theorem claim_C5_counterexample :
    (analyze_mood ("ts") 0 ("u") ("hello") (some ("high"))).music_track =
      "Weightless - Marconi Union" ∧
    (music_options ("high")).all
      (fun tr => tr ≠ ("Weightless - Marconi Union")) = true := by decide

/-- C5 (amended): `mock_analyze_mood` picks the music track from the fixed
3-candidate list of the severity tier at index `hash(mood text) mod 3`;
the pick depends only on the hash of the text and the severity (not on
the trigger or user), so repeated calls agree. The `mindmate_frontend.py`
classifier instead returns a single fixed track per severity tier. -/
theorem claim_C5 (hash : String → Int) (md5hex : String → String)
    (now u t : String) (sev : Option String) (n : Nat)
    (hs : sev = none ∨ sev = some ("low") ∨ sev = some ("medium") ∨ sev = some ("high")) :
    (∃ r, mock_analyze_mood hash md5hex now u t sev = some r ∧
      (music_options r.severity).length = 3 ∧
      r.music_track = (music_options r.severity).getD
        ((hash t % ((music_options r.severity).length : Int)).toNat) ("") ∧
      (∀ u2 t2 sev2, mock_severity t2 sev2 = r.severity → hash t2 = hash t →
        ∃ r2, mock_analyze_mood hash md5hex now u2 t2 sev2 = some r2 ∧
          r2.music_track = r.music_track)) ∧
    (∀ t2 : String, fe_severity t2 sev = fe_severity t sev →
      (analyze_mood now n u t2 sev).music_track =
        (analyze_mood now n u t sev).music_track) := by
  have hmem := mock_severity_mem t sev hs
  obtain ⟨i, hi⟩ := Option.isSome_iff_exists.mp
    (mock_deep_insight_isSome (mock_primary_trigger t) (mock_severity t sev) hmem)
  refine ⟨⟨_, mock_analyze_mood_eq_some hash md5hex now u t sev i hi,
    music_options_length _, rfl, ?_⟩, ?_⟩
  · intro u2 t2 sev2 hsev2 hh
    obtain ⟨i2, hi2⟩ := Option.isSome_iff_exists.mp
      (mock_deep_insight_isSome (mock_primary_trigger t2) (mock_severity t2 sev2)
        (by rw [hsev2]; exact hmem))
    refine ⟨_, mock_analyze_mood_eq_some hash md5hex now u2 t2 sev2 i2 hi2, ?_⟩
    show mock_music hash t2 (mock_severity t2 sev2) = mock_music hash t (mock_severity t sev)
    unfold mock_music
    rw [hsev2, hh]
  · intro t2 hsev2
    show fe_music (fe_severity t2 sev) = fe_music (fe_severity t sev)
    rw [hsev2]

/-- Witness for C5 at a concrete text and severity. -/
theorem claim_C5_witness :
    (some ("high") = none ∨ some ("high") = some ("low") ∨
      some ("high") = some ("medium") ∨ some ("high") = some ("high")) ∧
    ((∃ r, mock_analyze_mood hash0 md5hex0 ("t0") ("u0") ("abc") (some ("high")) = some r ∧
      (music_options r.severity).length = 3 ∧
      r.music_track = (music_options r.severity).getD
        ((hash0 ("abc") % ((music_options r.severity).length : Int)).toNat) ("") ∧
      (∀ u2 t2 sev2, mock_severity t2 sev2 = r.severity → hash0 t2 = hash0 ("abc") →
        ∃ r2, mock_analyze_mood hash0 md5hex0 ("t0") u2 t2 sev2 = some r2 ∧
          r2.music_track = r.music_track)) ∧
    (∀ t2 : String, fe_severity t2 (some ("high")) = fe_severity ("abc") (some ("high")) →
      (analyze_mood ("t0") 0 ("u0") t2 (some ("high"))).music_track =
        (analyze_mood ("t0") 0 ("u0") ("abc") (some ("high"))).music_track)) :=
  ⟨by decide,
    claim_C5 hash0 md5hex0 ("t0") ("u0") ("abc") (some ("high")) 0 (by decide)⟩

/-- Counterexample to C6: for a keyword-free text at severity "high" the
`mindmate_frontend.py` primary trigger is "other", but its insight is not
the three-part concatenation of the severity boilerplate, the
trigger-by-severity table sentence, and the severity closing. -/
theorem claim_C6_counterexample :
    (analyze_mood ("ts") 0 ("u") ("hello") (some ("high"))).primary_trigger = "other" ∧
    (((trigger_insights.lookup ("other")).getD []).lookup ("high")).isSome ∧
    (analyze_mood ("ts") 0 ("u") ("hello") (some ("high"))).deep_insight ≠
      mock_base_insight ("high") ++ " " ++
        ((((trigger_insights.lookup ("other")).getD []).lookup ("high")).getD ("")) ++
        " " ++ mock_closing_insight ("high") := by decide

/-- C6 (amended): the `mock_analyze_mood` insight is the concatenation of
the severity-tier opening sentence, the sentence of the fixed
trigger-by-severity table at the record's trigger and severity, and the
severity-tier closing sentence. The `mindmate_frontend.py` insight is a
single fixed sentence per severity tier, independent of the trigger. -/
theorem claim_C6 (hash : String → Int) (md5hex : String → String)
    (now u t : String) (sev : Option String) (n : Nat)
    (hs : sev = none ∨ sev = some ("low") ∨ sev = some ("medium") ∨ sev = some ("high")) :
    (∃ r, mock_analyze_mood hash md5hex now u t sev = some r ∧
      (((trigger_insights.lookup r.primary_trigger).getD []).lookup r.severity).isSome ∧
      r.deep_insight = mock_base_insight r.severity ++ " " ++
        ((((trigger_insights.lookup r.primary_trigger).getD []).lookup
          r.severity).getD ("")) ++ " " ++ mock_closing_insight r.severity) ∧
    (∀ t2 : String, fe_severity t2 sev = fe_severity t sev →
      (analyze_mood now n u t2 sev).deep_insight =
        (analyze_mood now n u t sev).deep_insight) := by
  have hmem := mock_severity_mem t sev hs
  obtain ⟨hparts, hsome⟩ := mock_insight_parts (mock_primary_trigger t)
    (mock_severity t sev) (mock_primary_mem t) hmem
  refine ⟨⟨_, mock_analyze_mood_eq_some hash md5hex now u t sev _ hparts, hsome, rfl⟩, ?_⟩
  intro t2 hsev2
  show fe_insight (fe_severity t2 sev) = fe_insight (fe_severity t sev)
  rw [hsev2]

/-- Witness for C6 at a concrete text and severity. -/
theorem claim_C6_witness :
    (none = (none : Option String) ∨ (none : Option String) = some ("low") ∨
      (none : Option String) = some ("medium") ∨ (none : Option String) = some ("high")) ∧
    ((∃ r, mock_analyze_mood hash0 md5hex0 ("t0") ("u0")
        ("I am stressed about my exam tomorrow") none = some r ∧
      (((trigger_insights.lookup r.primary_trigger).getD []).lookup r.severity).isSome ∧
      r.deep_insight = mock_base_insight r.severity ++ " " ++
        ((((trigger_insights.lookup r.primary_trigger).getD []).lookup
          r.severity).getD ("")) ++ " " ++ mock_closing_insight r.severity) ∧
    (∀ t2 : String, fe_severity t2 none =
        fe_severity ("I am stressed about my exam tomorrow") none →
      (analyze_mood ("t0") 0 ("u0") t2 none).deep_insight =
        (analyze_mood ("t0") 0 ("u0")
          ("I am stressed about my exam tomorrow") none).deep_insight)) :=
  ⟨Or.inl rfl,
    claim_C6 hash0 md5hex0 ("t0") ("u0")
      ("I am stressed about my exam tomorrow") none 0 (Or.inl rfl)⟩

/-- C8: with unique record ids, the per-entry delete removes exactly the
selected record (membership, order preservation via sublist, and
multiplicities of all other records unchanged), and the clear-my-data
handler removes exactly the current user's records. -/
theorem claim_C8 (entries : List MoodRecord) (e : MoodRecord) (u : String)
    (hmem : e ∈ entries) (hids : (entries.map MoodRecord.record_id).Nodup) :
    (∀ x : MoodRecord, x ∈ delete_entry entries e ↔
      (x ∈ entries ∧ x.record_id ≠ e.record_id)) ∧
    List.Sublist (delete_entry entries e) entries ∧
    (∀ x : MoodRecord, x.record_id ≠ e.record_id →
      (delete_entry entries e).count x = entries.count x) ∧
    (∀ x : MoodRecord, x ∈ clear_user_data entries u ↔
      (x ∈ entries ∧ x.user_id ≠ u)) ∧
    List.Sublist (clear_user_data entries u) entries ∧
    (∀ x : MoodRecord, x.user_id ≠ u →
      (clear_user_data entries u).count x = entries.count x) := by
  have hdel : delete_entry entries e =
      entries.filter (fun x => x.record_id ≠ e.record_id) :=
    erase_eq_filter_of_nodup_ids entries e hmem hids
  refine ⟨?_, ?_, ?_, ?_, ?_, ?_⟩
  · intro x
    rw [hdel]
    simp [List.mem_filter]
  · rw [hdel]
    exact List.filter_sublist _
  · intro x hx
    rw [hdel]
    exact List.count_filter (by simpa using hx)
  · intro x
    unfold clear_user_data
    simp [List.mem_filter]
  · exact List.filter_sublist _
  · intro x hx
    exact List.count_filter (by simpa using hx)

/-- Witness for C8 on a two-entry store. -/
theorem claim_C8_witness :
    ((sample_record ("a") ("u1")) ∈
      [sample_record ("a") ("u1"), sample_record ("b") ("u2")]) ∧
    (([sample_record ("a") ("u1"), sample_record ("b") ("u2")].map
        MoodRecord.record_id).Nodup) ∧
    ((∀ x : MoodRecord,
        x ∈ delete_entry [sample_record ("a") ("u1"), sample_record ("b") ("u2")]
          (sample_record ("a") ("u1")) ↔
        (x ∈ [sample_record ("a") ("u1"), sample_record ("b") ("u2")] ∧
          x.record_id ≠ (sample_record ("a") ("u1")).record_id)) ∧
      List.Sublist (delete_entry [sample_record ("a") ("u1"), sample_record ("b") ("u2")]
        (sample_record ("a") ("u1")))
        [sample_record ("a") ("u1"), sample_record ("b") ("u2")] ∧
      (∀ x : MoodRecord, x.record_id ≠ (sample_record ("a") ("u1")).record_id →
        (delete_entry [sample_record ("a") ("u1"), sample_record ("b") ("u2")]
          (sample_record ("a") ("u1"))).count x =
          [sample_record ("a") ("u1"), sample_record ("b") ("u2")].count x) ∧
      (∀ x : MoodRecord,
        x ∈ clear_user_data [sample_record ("a") ("u1"), sample_record ("b") ("u2")]
          ("u2") ↔
        (x ∈ [sample_record ("a") ("u1"), sample_record ("b") ("u2")] ∧
          x.user_id ≠ "u2")) ∧
      List.Sublist (clear_user_data
        [sample_record ("a") ("u1"), sample_record ("b") ("u2")] ("u2"))
        [sample_record ("a") ("u1"), sample_record ("b") ("u2")] ∧
      (∀ x : MoodRecord, x.user_id ≠ "u2" →
        (clear_user_data [sample_record ("a") ("u1"), sample_record ("b") ("u2")]
          ("u2")).count x =
          [sample_record ("a") ("u1"), sample_record ("b") ("u2")].count x)) :=
  ⟨by decide, by decide,
    claim_C8 [sample_record ("a") ("u1"), sample_record ("b") ("u2")]
      (sample_record ("a") ("u1")) ("u2") (by decide) (by decide)⟩

/-- C9: every record produced by either classifier has a severity in
{low, medium, high}, a primary trigger that is a table category or
"other", and trigger-score keys drawn from the fixed category set, given
that the supplied severity is absent or one of the three values. -/
theorem claim_C9 (hash : String → Int) (md5hex : String → String)
    (now u t : String) (sev : Option String) (n : Nat)
    (hs : sev = none ∨ sev = some ("low") ∨ sev = some ("medium") ∨ sev = some ("high")) :
    (∃ r, mock_analyze_mood hash md5hex now u t sev = some r ∧
      r.severity ∈ severity_levels ∧
      r.primary_trigger ∈ ("other") :: trigger_names ∧
      ∀ p ∈ r.trigger_scores, p.1 ∈ trigger_names) ∧
    ((analyze_mood now n u t sev).severity ∈ severity_levels ∧
      (analyze_mood now n u t sev).primary_trigger ∈ ("other") :: fe_trigger_names ∧
      ∀ p ∈ (analyze_mood now n u t sev).trigger_scores, p.1 ∈ fe_trigger_names) := by
  have hmem := mock_severity_mem t sev hs
  obtain ⟨i, hi⟩ := Option.isSome_iff_exists.mp
    (mock_deep_insight_isSome (mock_primary_trigger t) (mock_severity t sev) hmem)
  have hmockkeys : ∀ p ∈ mock_trigger_scores t, p.1 ∈ trigger_names := by
    intro p hp
    have hmap : (mock_trigger_scores t).map Prod.fst = trigger_names := rfl
    have := List.mem_map_of_mem Prod.fst hp
    rw [hmap] at this
    exact this
  have hfekeys : ∀ p ∈ fe_trigger_scores t, p.1 ∈ fe_trigger_names :=
    feScoresB_fst_mem _ _ _ _ _ _ _
  have hfeprim : fe_primary_trigger t ∈ ("other") :: fe_trigger_names := by
    unfold fe_primary_trigger
    cases hc : fe_trigger_scores t with
    | nil => simp
    | cons x xs =>
      have hm : pyMax2 x xs ∈ fe_trigger_scores t := by
        rw [hc]
        exact pyMax2_mem xs x
      exact List.mem_cons_of_mem _ (hfekeys _ hm)
  exact ⟨⟨_, mock_analyze_mood_eq_some hash md5hex now u t sev i hi,
      hmem, mock_primary_mem t, hmockkeys⟩,
    fe_severity_mem t sev hs, hfeprim, hfekeys⟩

/-- Witness for C9 at a concrete text. -/
theorem claim_C9_witness :
    ((none : Option String) = none ∨ (none : Option String) = some ("low") ∨
      (none : Option String) = some ("medium") ∨ (none : Option String) = some ("high")) ∧
    ((∃ r, mock_analyze_mood hash0 md5hex0 ("t0") ("u0") ("I feel sick") none = some r ∧
      r.severity ∈ severity_levels ∧
      r.primary_trigger ∈ ("other") :: trigger_names ∧
      ∀ p ∈ r.trigger_scores, p.1 ∈ trigger_names) ∧
    ((analyze_mood ("t0") 0 ("u0") ("I feel sick") none).severity ∈ severity_levels ∧
      (analyze_mood ("t0") 0 ("u0") ("I feel sick") none).primary_trigger ∈
        ("other") :: fe_trigger_names ∧
      ∀ p ∈ (analyze_mood ("t0") 0 ("u0") ("I feel sick") none).trigger_scores,
        p.1 ∈ fe_trigger_names)) :=
  ⟨Or.inl rfl,
    claim_C9 hash0 md5hex0 ("t0") ("u0") ("I feel sick") none 0 (Or.inl rfl)⟩

end Mindmate
